import Mathlib

/-!
Shallow embedding of the itemWatcher core (src/src): the price parser and
extraction pipelines of the Amazon and Flipkart scrapers, the per-product
change-detection and alert dispatch of `watcher.check_product`, the batch
runner `watcher.check_all_products`, and the daily-summary dedup of
`scheduler.run_check`.

Prices are modelled as rationals (`ℚ`).  The Python code uses IEEE floats,
but every property below concerns comparisons and exactly representable
decimal literals, so the idealisation is faithful for these claims.
-/

namespace ItemWatcher

/-! ### Python truthiness helpers

`Optional[float]` values in the source are often tested for truthiness
(`if product.target_price:`, `if price:`): `None` and `0.0` are falsy,
every other float is truthy. -/

/-- Truthiness of a Python `Optional[float]`: `None` and `0.0` are falsy. -/
def optRatTruthy : Option ℚ → Bool
  | none => false
  | some q => !(q == 0)

/-! ### The price parser

Model of `AmazonScraper._parse_price` / `FlipkartScraper._parse_price`
(src/src/scrapers/amazon.py:20-29 and flipkart.py:20-29, identical bodies):

```python
def _parse_price(self, text):
    if not text:
        return None
    cleaned = re.sub(r'[₹,\s]', '', text)
    try:
        return float(cleaned)
    except ValueError:
        return None
```

`pyFloatList` below models CPython's `float(str)` parser for finite decimal
literals: optional sign, digit runs that may contain single underscores
between digits, optional fractional part, optional decimal exponent.
The special literals `inf`/`infinity`/`nan` (which produce non-finite
floats) are outside the rational model and parse to `none` here; no claim
touches them.  Whitespace stripping models the ASCII whitespace characters
(the regex `\s` has already removed them from every reachable input). -/

/-- ASCII whitespace, as matched by the regex class `\s`. -/
def isPyWs (c : Char) : Bool :=
  c == ' ' || c == '\t' || c == '\n' || c == '\r' || c == '\x0b' || c == '\x0c'

/-- Characters removed by `re.sub(r'[₹,\s]', '', text)`. -/
def isStripped (c : Char) : Bool :=
  c == '₹' || c == ',' || isPyWs c

/-- The cleaning substitution `re.sub(r'[₹,\s]', '', text)`. -/
def cleanChars (l : List Char) : List Char :=
  l.filter (fun c => !(isStripped c))

/-- Numeric value of a digit string (most significant digit first). -/
def digitsToNat (l : List Char) : ℕ :=
  l.foldl (fun a c => 10 * a + (c.toNat - '0'.toNat)) 0

/-- Greedy continuation of a digit run after its first digit.  A single
underscore is accepted between two digits (Python numeric-literal rule);
anything else ends the run. -/
def takeDigits : List Char → List Char × List Char
  | [] => ([], [])
  | [c] => if c.isDigit then ([c], []) else ([], [c])
  | c :: c2 :: cs2 =>
    if c.isDigit then
      let (d, r) := takeDigits (c2 :: cs2)
      (c :: d, r)
    else if c = '_' then
      if c2.isDigit then
        let (d, r) := takeDigits cs2
        (c2 :: d, r)
      else ([], c :: c2 :: cs2)
    else ([], c :: c2 :: cs2)

/-- A digit run must start with a digit; returns the digits and the rest. -/
def parseDigits (l : List Char) : Option (List Char × List Char) :=
  match l with
  | [] => none
  | c :: cs =>
    if c.isDigit then
      let (d, r) := takeDigits cs
      some (c :: d, r)
    else none

/-- Mantissa of the form `D [. D?]` (integer part present): returns the
mantissa digits read as one integer together with the number of fractional
digits, so `12.75` becomes `(1275, 2)`. -/
def parseIntFrac (l : List Char) : Option ((ℕ × ℕ) × List Char) :=
  match parseDigits l with
  | none => none
  | some (ds, rest) =>
    match rest with
    | '.' :: t2 =>
      (match parseDigits t2 with
       | some (fs, rest2) => some ((digitsToNat (ds ++ fs), fs.length), rest2)
       | none => some ((digitsToNat ds, 0), t2))
    | _ => some ((digitsToNat ds, 0), rest)

/-- Mantissa: `D [. D?]` or `. D`, as mantissa digits and fraction length. -/
def parseMantissa (l : List Char) : Option ((ℕ × ℕ) × List Char) :=
  match l with
  | '.' :: t =>
    (match parseDigits t with
     | some (ds, rest) => some ((digitsToNat ds, ds.length), rest)
     | none => none)
  | _ => parseIntFrac l

/-- Decimal exponent after `e`/`E`: optional sign then a digit run. -/
def parseExp (l : List Char) : Option ℤ :=
  let (sgn, l1) : ℤ × List Char :=
    match l with
    | '+' :: t => (1, t)
    | '-' :: t => (-1, t)
    | _ => (1, l)
  match parseDigits l1 with
  | some (ds, rest) =>
    if rest = [] then some (sgn * (digitsToNat ds : ℤ)) else none
  | none => none

/-- Unsigned float literal: mantissa digits, fraction length, exponent.
The denoted value is `m / 10 ^ k * 10 ^ e`. -/
def parseUnsignedParts (l : List Char) : Option (ℕ × ℕ × ℤ) :=
  match parseMantissa l with
  | none => none
  | some ((m, k), rest) =>
    match rest with
    | [] => some (m, k, 0)
    | c :: t =>
      if c = 'e' ∨ c = 'E' then
        match parseExp t with
        | some e => some (m, k, e)
        | none => none
      else none

/-- Signed float literal: sign flag plus the unsigned parts. -/
def pyFloatParts (l : List Char) : Option (Bool × ℕ × ℕ × ℤ) :=
  match l with
  | [] => none
  | c :: t =>
    if c = '+' then (parseUnsignedParts t).map (fun p => (false, p))
    else if c = '-' then (parseUnsignedParts t).map (fun p => (true, p))
    else (parseUnsignedParts (c :: t)).map (fun p => (false, p))

/-- Rational value `m / 10 ^ k * 10 ^ e` of unsigned parts.  The two
branches denote the same number; the integer branch keeps concrete
evaluation inside `ℕ`. -/
def partsToRat (m : ℕ) (k : ℕ) (e : ℤ) : ℚ :=
  if (k : ℤ) ≤ e then ((m * 10 ^ (e - (k : ℤ)).toNat : ℕ) : ℚ)
  else (m : ℚ) / (10 : ℚ) ^ ((k : ℤ) - e).toNat

/-- Value of a parsed signed float literal. -/
def ratOfParts : Bool × ℕ × ℕ × ℤ → ℚ
  | (neg, m, k, e) => if neg then -(partsToRat m k e) else partsToRat m k e

/-- Signed float literal value (finite decimal forms of `float(str)`). -/
def pyFloatList (l : List Char) : Option ℚ :=
  (pyFloatParts l).map ratOfParts

/-- Leading/trailing whitespace stripping performed by `float(str)`. -/
def stripWs (l : List Char) : List Char :=
  (((l.dropWhile isPyWs).reverse.dropWhile isPyWs)).reverse

/-- Model of `_parse_price` (shared by both scrapers). -/
def parse_price (text : String) : Option ℚ :=
  if text.isEmpty then none
  else pyFloatList (stripWs (cleanChars text.toList))

/-! ### Data model

`ProductInfo` (src/src/scrapers/base.py) carries `url, title, price,
currency, original_price, in_stock, seller, image_url, scraped_at, source`;
the fields below are the ones the change-detection and alert logic reads,
the others are opaque strings/timestamps carried through unchanged.
Likewise for `WatchedProduct` and `PriceRecord` (src/src/storage/database.py). -/

/-- Scraped observation (the fields the core logic inspects). -/
structure ProductInfo where
  price : ℚ
  original_price : Option ℚ
  in_stock : Bool
deriving DecidableEq

deriving instance DecidableEq for Except

/-- Tracked product row (the fields `check_product` reads). -/
structure WatchedProduct where
  id : ℕ
  target_price : Option ℚ
deriving DecidableEq

/-- Stored price point (the fields compared against a new observation). -/
structure PriceRecord where
  price : ℚ
  in_stock : Bool
deriving DecidableEq

/-- A row of the `prices` table as written by `Database.record_price`. -/
structure RecRow where
  pid : ℕ
  price : ℚ
  original_price : Option ℚ
  in_stock : Bool
deriving DecidableEq

/-- The `prices` table, in insertion order (append-only). -/
abbrev DB := List RecRow

/-- Model of `Database.get_latest_price`: the most recently recorded row
for the product (rows are inserted in scrape order, src/src/storage/database.py:163-166). -/
def latestPrice (db : DB) (pid : ℕ) : Option PriceRecord :=
  (db.reverse.find? (fun r => r.pid == pid)).map (fun r => ⟨r.price, r.in_stock⟩)

/-- Model of `Database.get_lowest_price`: `MIN(price)` over the product's
rows, `none` when the product has no rows. -/
def lowestPrice (db : DB) (pid : ℕ) : Option ℚ :=
  (db.filterMap (fun r => if r.pid == pid then some r.price else none)).foldl
    (fun acc p =>
      match acc with
      | none => some p
      | some q => some (min q p))
    none

/-- Model of `Database.record_price`: append one row. -/
def recordPrice (db : DB) (pid : ℕ) (info : ProductInfo) : DB :=
  db ++ [⟨pid, info.price, info.original_price, info.in_stock⟩]

/-! ### Change detection and alert dispatch

Model of the alert decisions of `watcher.check_product`
(src/src/watcher.py:56-90) for a successfully scraped observation.  The
four blocks run in source order: email price-drop, email back-in-stock,
Telegram target, Telegram back-in-stock.  `hasNotifier`/`hasTelegram`
model whether the corresponding channel object was passed in. -/

/-- One outbound channel call, with the payload the code passes. -/
inductive Alert where
  | emailPrice (current previous : ℚ) (target lowest : Option ℚ)
  | emailRestock (price : ℚ)
  | telegramTarget (current target : ℚ)
  | telegramRestock (price : ℚ)
deriving DecidableEq

/-- Discriminator for the email price-drop call. -/
def Alert.isEmailPrice : Alert → Bool
  | .emailPrice _ _ _ _ => true
  | _ => false

/-- Discriminator for the email back-in-stock call. -/
def Alert.isEmailRestock : Alert → Bool
  | .emailRestock _ => true
  | _ => false

/-- Discriminator for the Telegram target call. -/
def Alert.isTgTarget : Alert → Bool
  | .telegramTarget _ _ => true
  | _ => false

/-- Discriminator for the Telegram back-in-stock call. -/
def Alert.isTgRestock : Alert → Bool
  | .telegramRestock _ => true
  | _ => false

/-- The email block (watcher.py:56-73): guarded by
`if notifier and previous:`; inside it, a price-drop alert on strict
decrease and a back-in-stock alert on a false-to-true stock transition. -/
def emailAlerts (hasNotifier : Bool) (p : WatchedProduct)
    (previous : Option PriceRecord) (lowest : Option ℚ)
    (info : ProductInfo) : List Alert :=
  match hasNotifier, previous with
  | true, some prev =>
    (if info.price < prev.price then
       [Alert.emailPrice info.price prev.price p.target_price lowest]
     else [])
    ++ (if info.in_stock = true ∧ prev.in_stock = false then
          [Alert.emailRestock info.price]
        else [])
  | _, _ => []

/-- The Telegram target block (watcher.py:75-82):
`if telegram and product.target_price and info.price <= product.target_price:`.
Note the Python truthiness test on the target: a target of `0.0` is falsy. -/
def tgTargetAlert (hasTelegram : Bool) (p : WatchedProduct)
    (info : ProductInfo) : List Alert :=
  match hasTelegram, p.target_price with
  | true, some t =>
    if t ≠ 0 ∧ info.price ≤ t then [Alert.telegramTarget info.price t] else []
  | _, _ => []

/-- The Telegram back-in-stock block (watcher.py:84-90):
`if telegram and previous and info.in_stock and not previous.in_stock:`. -/
def tgRestockAlert (hasTelegram : Bool) (previous : Option PriceRecord)
    (info : ProductInfo) : List Alert :=
  match hasTelegram, previous with
  | true, some prev =>
    if info.in_stock = true ∧ prev.in_stock = false then
      [Alert.telegramRestock info.price]
    else []
  | _, _ => []

/-- All channel calls issued by one successful check, in source order. -/
def checkProductAlerts (hasNotifier hasTelegram : Bool) (p : WatchedProduct)
    (previous : Option PriceRecord) (lowest : Option ℚ)
    (info : ProductInfo) : List Alert :=
  emailAlerts hasNotifier p previous lowest info
    ++ tgTargetAlert hasTelegram p info
    ++ tgRestockAlert hasTelegram previous info

/-! ### Per-product check and the batch runner

`check_product` (watcher.py:30-96) wraps scrape → read history → record →
alert in one `try`; any exception (scraper `ValueError`, i.e. navigation or
extraction failure, or a notification send failure) is caught at line 94,
printed as one failure line, and turns the result into `None`.  The scrape
outcome and the success of each channel send are inputs here (`scrape`,
`notifyOk`), since they depend on the outside world. -/

/-- Result of one product check as observed by the batch loop. -/
structure Outcome where
  pid : ℕ
  failed : Bool
  info : Option ProductInfo
deriving DecidableEq

/-- Model of `check_product`.  On a scrape failure nothing is recorded and
the failure is logged.  On success the observation is recorded first; the
alert sends run afterwards, so a send failure still leaves the row recorded
but logs the check as failed and returns `None`. -/
def checkProduct (scrape : WatchedProduct → Except String ProductInfo)
    (notifyOk : Alert → Bool) (hasNotifier hasTelegram : Bool)
    (db : DB) (p : WatchedProduct) : DB × Outcome :=
  match scrape p with
  | .error _ => (db, ⟨p.id, true, none⟩)
  | .ok info =>
    let previous := latestPrice db p.id
    let lowest := lowestPrice db p.id
    let db' := recordPrice db p.id info
    let alerts := checkProductAlerts hasNotifier hasTelegram p previous lowest info
    if alerts.all notifyOk then (db', ⟨p.id, false, some info⟩)
    else (db', ⟨p.id, true, none⟩)

/-- Accumulated state of the `check_all_products` loop
(watcher.py:113-132).  `aboves` keeps, per above-target product, the pair
(new price, target); the code stores the gap `price - target` and the
product, which this pair determines. -/
structure LoopRes where
  db : DB
  outs : List Outcome
  anyBelow : Bool
  aboves : List (ℚ × ℚ)
deriving DecidableEq

/-- The product loop of `check_all_products`: sequential, one outcome per
product; `if info and product.target_price:` classifies targeted products
(Python truthiness again: a `0.0` target is ignored). -/
def batchLoop (scrape : WatchedProduct → Except String ProductInfo)
    (notifyOk : Alert → Bool) (hasNotifier hasTelegram : Bool) :
    List WatchedProduct → DB → LoopRes
  | [], db => ⟨db, [], false, []⟩
  | p :: rest, db =>
    let c := checkProduct scrape notifyOk hasNotifier hasTelegram db p
    let classified : Bool × List (ℚ × ℚ) :=
      match c.2.info, p.target_price with
      | some info, some t =>
        if t ≠ 0 then
          if info.price ≤ t then (true, []) else (false, [(info.price, t)])
        else (false, [])
      | _, _ => (false, [])
    let r := batchLoop scrape notifyOk hasNotifier hasTelegram rest c.1
    ⟨r.db, c.2 :: r.outs, classified.1 || r.anyBelow, classified.2 ++ r.aboves⟩

/-- Result of one full batch pass. -/
structure BatchResult where
  db : DB
  outs : List Outcome
  summarySent : Bool
deriving DecidableEq

/-- Model of `check_all_products` (watcher.py:99-148).  After the loop the
Telegram daily summary goes out iff the telegram channel is configured, the
`send_telegram_summary` flag is on and no targeted product was at/below
target — either the closest-gap form (some product above target) or the
plain form (no targeted products at all). -/
def checkAllProducts (scrape : WatchedProduct → Except String ProductInfo)
    (notifyOk : Alert → Bool) (hasNotifier hasTelegram sendFlag : Bool)
    (db : DB) (products : List WatchedProduct) : BatchResult :=
  let r := batchLoop scrape notifyOk hasNotifier hasTelegram products db
  let sent :=
    if hasTelegram && sendFlag && !r.anyBelow && !r.aboves.isEmpty then true
    else if hasTelegram && sendFlag && !r.anyBelow && r.aboves.isEmpty then true
    else false
  ⟨r.db, r.outs, sent⟩

/-! ### The scheduler's daily-summary dedup

`scheduler.run_check` (src/src/scheduler.py:21-46) keeps one process-local
value `_last_summary_date`; each run compares it to today's date, claims
the daily slot *before* the batch runs, and passes the resulting flag as
`send_telegram_summary`.  Dates are modelled as integers (day numbers). -/

/-- Process-local scheduler state: date of the last claimed summary slot. -/
structure SchedulerState where
  lastSummaryDate : Option ℤ
deriving DecidableEq

/-- Inputs of one scheduled run: its calendar date plus everything
`check_all_products` consumes. -/
structure RunInput where
  date : ℤ
  products : List WatchedProduct
  scrape : WatchedProduct → Except String ProductInfo
  notifyOk : Alert → Bool
  hasNotifier : Bool
  hasTelegram : Bool

/-- Model of `run_check`: claim the slot if today differs from the stored
date, then run the batch with the flag; returns the new state, the grown
database and whether the batch actually sent a summary. -/
def runCheck (st : SchedulerState) (db : DB) (inp : RunInput) :
    SchedulerState × DB × Bool :=
  let send : Bool := decide (¬ st.lastSummaryDate = some inp.date)
  let st' := if send then SchedulerState.mk (some inp.date) else st
  let r := checkAllProducts inp.scrape inp.notifyOk inp.hasNotifier
    inp.hasTelegram send db inp.products
  (st', r.db, r.summarySent)

/-- A sequence of scheduled runs in one process: returns, per run, its date
and whether it sent a daily summary. -/
def processRuns : SchedulerState → DB → List RunInput → List (ℤ × Bool)
  | _, _, [] => []
  | st, db, inp :: rest =>
    let r := runCheck st db inp
    (inp.date, r.2.2) :: processRuns r.1 r.2.1 rest

/-! ### Substring matching

Helpers for the Python `in` operator and the `re.search` calls on page
text.  `.toLower` models Python `.lower()` / the `re.I` flag (the patterns
involved are ASCII). -/

/-- Whether `needle` is an initial segment of `haystack`. -/
def listStartsWith : List Char → List Char → Bool
  | [], _ => true
  | _ :: _, [] => false
  | a :: as, b :: bs => a == b && listStartsWith as bs

/-- Whether `needle` occurs contiguously inside `haystack`. -/
def occursIn (needle : List Char) : List Char → Bool
  | [] => needle.isEmpty
  | b :: bs => listStartsWith needle (b :: bs) || occursIn needle bs

/-- ASCII lowercasing of one character, as `.lower()`/`re.I` act on the
ASCII patterns involved here. -/
def lowerChar (c : Char) : Char :=
  if 'A' ≤ c ∧ c ≤ 'Z' then Char.ofNat (c.toNat + 32) else c

/-- ASCII lowercasing of a character list. -/
def lowerStr (l : List Char) : List Char :=
  l.map lowerChar

/-- Python `needle in haystack.lower()` with an ASCII-lowercase needle
(also models a case-insensitive regex alternative on the haystack). -/
def containsLower (haystack needle : String) : Bool :=
  occursIn needle.toList (lowerStr haystack.toList)

/-! ### Amazon extraction pipeline

Model of the parsing part of `AmazonScraper.scrape`
(src/src/scrapers/amazon.py:54-140).  The page is represented by what the
fixed CSS queries return on it: `priceSelTexts` lists, per selector of
`price_selectors` in order, the text of the first matching element (or
`none` when the selector matches nothing); `priceDivTexts` lists the texts
of all `.a-price .a-offscreen` elements; `mrpSelTexts` likewise for
`mrp_selectors`; `availText` is the stripped text of `#availability`. -/

/-- Queried content of a rendered Amazon page. -/
structure AmzPage where
  priceSelTexts : List (Option String)
  priceDivTexts : List String
  mrpSelTexts : List (Option String)
  availText : Option String
deriving DecidableEq

/-- The selector loop pattern
`if elem: price = self._parse_price(...); if price: break`.  The running
Python variable keeps its last value when the selector matches nothing, so
a parsed `0.0` can survive to the end of the loop without breaking. -/
def parseScanFirstTruthy : List (Option String) → Option ℚ → Option ℚ
  | [], acc => acc
  | none :: rest, acc => parseScanFirstTruthy rest acc
  | some t :: rest, _ =>
    if optRatTruthy (parse_price t) then parse_price t
    else parseScanFirstTruthy rest (parse_price t)

/-- The MRP loop (amazon.py:101-107): accept the first candidate that is
truthy and strictly greater than the selling price, otherwise reset the
variable to `None` and continue. -/
def amazonMrpScan (price : ℚ) : List (Option String) → Option ℚ → Option ℚ
  | [], acc => acc
  | none :: rest, acc => amazonMrpScan price rest acc
  | some t :: rest, _ =>
    if optRatTruthy (parse_price t) ∧ price < (parse_price t).getD 0 then
      parse_price t
    else amazonMrpScan price rest none

/-- The `#availability` test (amazon.py:109-115): in stock unless the
lowercased availability text contains `unavailable` or `out of stock`. -/
def amazonAvailOut (t : String) : Bool :=
  containsLower t "unavailable" || containsLower t "out of stock"

/-- Stock flag of the Amazon pipeline: defaults to `true` when the
`#availability` element is absent. -/
def amazonInStock : Option String → Bool
  | none => true
  | some t => !(amazonAvailOut t)

/-- The extracted Amazon price variable after both loops: ordered price
selectors, then the `.a-price .a-offscreen` sweep only if the price
variable is still `None`. -/
def amazonPriceVar (page : AmzPage) : Option ℚ :=
  match parseScanFirstTruthy page.priceSelTexts none with
  | none => parseScanFirstTruthy (page.priceDivTexts.map some) none
  | some v => some v

/-- Model of the extraction part of `AmazonScraper.scrape`: `ValueError`
when the price variable is still `None`, then MRP and stock. -/
def amazonScrape (page : AmzPage) : Except String ProductInfo :=
  match amazonPriceVar page with
  | none => .error "Could not extract price"
  | some pv =>
    .ok ⟨pv, amazonMrpScan pv page.mrpSelTexts none,
      amazonInStock page.availText⟩

/-! ### Flipkart extraction pipeline

Model of the parsing part of `FlipkartScraper.scrape`
(src/src/scrapers/flipkart.py:62-188) and of its BeautifulSoup fallback
`_fallback_price_extract` (flipkart.py:193-226). -/

/-- One `div`/`span` element as seen by the in-page JavaScript price
extraction: its direct text, whether its computed style is struck through,
and the text of its parent element (checked against the offer/EMI regex).
The script also computes an unused `ancestor` lookup, dead code here. -/
structure FkElem where
  directText : String
  strike : Bool
  parentText : String
deriving DecidableEq

/-- The JS price pattern `/^₹[\d,]+$/`. -/
def fkPricePattern (text : String) : Bool :=
  match text.toList with
  | '₹' :: rest => !rest.isEmpty && rest.all (fun c => c.isDigit || c == ',')
  | _ => false

/-- `parseInt(directText.replace(/[₹,]/g, ''), 10)` for a pattern-matched
text: the remaining digit string, `NaN` (here `none`) when it is empty. -/
def jsParseInt (text : String) : Option ℕ :=
  let ds := text.toList.filter (fun c => !(c == '₹' || c == ','))
  if ds.isEmpty then none else some (digitsToNat ds)

/-- The offer-context regex
`/bank offer|exchange|emi|lowest price|buy at/i` over the parent text. -/
def fkOfferCtx (s : String) : Bool :=
  containsLower s "bank offer" || containsLower s "exchange"
    || containsLower s "emi" || containsLower s "lowest price"
    || containsLower s "buy at"

/-- The JS element sweep (flipkart.py:93-121): pattern-matched texts parse
to a number; struck-through ones are MRP candidates, the rest are price
candidates unless their parent text looks like an offer.  Document order
is preserved. -/
def fkScanElems : List FkElem → List ℚ × List ℚ
  | [] => ([], [])
  | e :: rest =>
    let (ps, ms) := fkScanElems rest
    if fkPricePattern e.directText then
      match jsParseInt e.directText with
      | none => (ps, ms)
      | some n =>
        if e.strike then (ps, (n : ℚ) :: ms)
        else if fkOfferCtx e.parentText then (ps, ms)
        else ((n : ℚ) :: ps, ms)
    else (ps, ms)

/-- BeautifulSoup view used by `_fallback_price_extract`:
`legacyPriceTexts` and `legacyMrpTexts` are the `select_one` results for
the legacy selector lists in order; `bareTexts` are the text nodes matched
by `find_all(string=re.compile(r'^₹[\d,]+$'))` with their parent texts. -/
structure FkSoup where
  legacyPriceTexts : List (Option String)
  bareTexts : List (String × String)
  legacyMrpTexts : List (Option String)
deriving DecidableEq

/-- The bare-text sweep (flipkart.py:207-216): first matching text node
whose parent is not an offer context and which parses to a truthy price. -/
def fkBareScan : List (String × String) → Option ℚ
  | [] => none
  | (txt, ptxt) :: rest =>
    if !(fkPricePattern txt) then fkBareScan rest
    else if fkOfferCtx ptxt then fkBareScan rest
    else
      match parse_price txt with
      | some v => if v ≠ 0 then some v else fkBareScan rest
      | none => fkBareScan rest

/-- Model of `_fallback_price_extract`: legacy price selectors (same
running-variable loop as Amazon), then the bare `₹` text sweep only if the
price is still `None`; MRP from its own legacy selector loop. -/
def fkFallback (soup : FkSoup) : Option ℚ × Option ℚ :=
  let price1 := parseScanFirstTruthy soup.legacyPriceTexts none
  let price2 :=
    match price1 with
    | none => fkBareScan soup.bareTexts
    | some v => some v
  let mrp := parseScanFirstTruthy soup.legacyMrpTexts none
  (price2, mrp)

/-- The out-of-stock regex
`/currently unavailable|out of stock|coming soon/i` over the body text. -/
def fkOutPattern (t : String) : Bool :=
  containsLower t "currently unavailable" || containsLower t "out of stock"
    || containsLower t "coming soon"

/-- Rendered Flipkart page: the JS-visible elements in document order, the
BeautifulSoup view for the fallback, and the body text. -/
structure FkPage where
  elems : List FkElem
  soup : FkSoup
  bodyText : String
deriving DecidableEq

/-- The truthiness discard
`if original_price and original_price <= price: original_price = None`
(flipkart.py:149-151): a falsy candidate (`None` or `0.0`) is left alone. -/
def fkDiscardMrp (pv : ℚ) (orig : Option ℚ) : Option ℚ :=
  if optRatTruthy orig ∧ orig.getD 0 ≤ pv then none else orig

/-- Price and MRP candidates of a Flipkart page before the final discard:
JS sweep first, the BeautifulSoup fallback replacing both values when the
JS price is `None`. -/
def fkRawPriceMrp (page : FkPage) : Option ℚ × Option ℚ :=
  match (fkScanElems page.elems).1.head? with
  | none => fkFallback page.soup
  | some v => (some v, (fkScanElems page.elems).2.head?)

/-- Model of the extraction part of `FlipkartScraper.scrape`:
`ValueError` when no price was found; then the truthiness discard and the
stock flag. -/
def flipkartScrape (page : FkPage) : Except String ProductInfo :=
  match (fkRawPriceMrp page).1 with
  | none => .error "Could not extract price"
  | some pv =>
    .ok ⟨pv, fkDiscardMrp pv (fkRawPriceMrp page).2,
      !(fkOutPattern page.bodyText)⟩

/-- Definition following the spec's words, for comparison with the two
pipelines: page text matches an "unavailable / out of stock / coming soon"
pattern. -/
def specOutOfStockPattern (t : String) : Bool :=
  containsLower t "unavailable" || containsLower t "out of stock"
    || containsLower t "coming soon"

end ItemWatcher

namespace ItemWatcher

/-! ### Concrete inputs used by the witness theorems -/

/-- Batch-scenario product 1. -/
def demoP1 : WatchedProduct := ⟨1, none⟩

/-- Batch-scenario product 2 (its extraction fails). -/
def demoP2 : WatchedProduct := ⟨2, none⟩

/-- Batch-scenario product 3. -/
def demoP3 : WatchedProduct := ⟨3, none⟩

/-- Batch-scenario scrape outcomes: product 2 raises, 1 and 3 succeed. -/
def demoScrape : WatchedProduct → Except String ProductInfo := fun p =>
  if p.id = 2 then .error "no price found"
  else if p.id = 1 then .ok ⟨100, none, true⟩
  else .ok ⟨90, none, true⟩

/-- A scheduled run on day 5 with no products, Telegram configured. -/
def demoRun : RunInput := ⟨5, [], fun _ => .error "x", fun _ => true, false, true⟩

/-- First run of day 3: one targeted product is scraped below its target,
so the batch sends no summary although the slot is claimed. -/
def demoRunBelow : RunInput :=
  ⟨3, [⟨1, some 100⟩], fun _ => .ok ⟨50, none, true⟩, fun _ => true, false, true⟩

/-- A later run on day 3: the targeted product is now above its target. -/
def demoRunAbove : RunInput :=
  ⟨3, [⟨2, some 100⟩], fun _ => .ok ⟨150, none, true⟩, fun _ => true, false, true⟩

end ItemWatcher

namespace ItemWatcher

/-! ### Helper lemmas -/

/-- Anyone-of on a conditional singleton list. -/
lemma any_ite_single (c : Prop) [Decidable c] (a : Alert) (f : Alert → Bool) :
    ((if c then [a] else []).any f) = (decide c && f a) := by
  split_ifs with h <;> simp [h]

/-- The email block never emits a Telegram target alert. -/
lemma emailAlerts_any_tgTarget (hasNotifier : Bool) (p : WatchedProduct)
    (previous : Option PriceRecord) (lowest : Option ℚ) (info : ProductInfo) :
    (emailAlerts hasNotifier p previous lowest info).any Alert.isTgTarget = false := by
  unfold emailAlerts
  cases hasNotifier <;> cases previous <;>
    simp [List.any_append, any_ite_single, Alert.isTgTarget]

/-- The Telegram restock block never emits a Telegram target alert. -/
lemma tgRestockAlert_any_tgTarget (hasTelegram : Bool)
    (previous : Option PriceRecord) (info : ProductInfo) :
    (tgRestockAlert hasTelegram previous info).any Alert.isTgTarget = false := by
  unfold tgRestockAlert
  cases hasTelegram <;> cases previous <;>
    simp [any_ite_single, Alert.isTgTarget]

/-- The Telegram target block never emits an email price-drop alert. -/
lemma tgTargetAlert_any_emailPrice (hasTelegram : Bool) (p : WatchedProduct)
    (info : ProductInfo) :
    (tgTargetAlert hasTelegram p info).any Alert.isEmailPrice = false := by
  unfold tgTargetAlert
  cases hasTelegram <;> cases p.target_price <;>
    simp [any_ite_single, Alert.isEmailPrice]

/-- The Telegram restock block never emits an email price-drop alert. -/
lemma tgRestockAlert_any_emailPrice (hasTelegram : Bool)
    (previous : Option PriceRecord) (info : ProductInfo) :
    (tgRestockAlert hasTelegram previous info).any Alert.isEmailPrice = false := by
  unfold tgRestockAlert
  cases hasTelegram <;> cases previous <;>
    simp [any_ite_single, Alert.isEmailPrice]

/-- The email block never emits a Telegram restock alert. -/
lemma emailAlerts_any_tgRestock (hasNotifier : Bool) (p : WatchedProduct)
    (previous : Option PriceRecord) (lowest : Option ℚ) (info : ProductInfo) :
    (emailAlerts hasNotifier p previous lowest info).any Alert.isTgRestock = false := by
  unfold emailAlerts
  cases hasNotifier <;> cases previous <;>
    simp [List.any_append, any_ite_single, Alert.isTgRestock]

/-- The Telegram target block never emits a Telegram restock alert. -/
lemma tgTargetAlert_any_tgRestock (hasTelegram : Bool) (p : WatchedProduct)
    (info : ProductInfo) :
    (tgTargetAlert hasTelegram p info).any Alert.isTgRestock = false := by
  unfold tgTargetAlert
  cases hasTelegram <;> cases p.target_price <;>
    simp [any_ite_single, Alert.isTgRestock]

/-- The Telegram target block never emits an email restock alert. -/
lemma tgTargetAlert_any_emailRestock (hasTelegram : Bool) (p : WatchedProduct)
    (info : ProductInfo) :
    (tgTargetAlert hasTelegram p info).any Alert.isEmailRestock = false := by
  unfold tgTargetAlert
  cases hasTelegram <;> cases p.target_price <;>
    simp [any_ite_single, Alert.isEmailRestock]

/-- The Telegram restock block never emits an email restock alert. -/
lemma tgRestockAlert_any_emailRestock (hasTelegram : Bool)
    (previous : Option PriceRecord) (info : ProductInfo) :
    (tgRestockAlert hasTelegram previous info).any Alert.isEmailRestock = false := by
  unfold tgRestockAlert
  cases hasTelegram <;> cases previous <;>
    simp [any_ite_single, Alert.isEmailRestock]

/-! ### C1 — Telegram target alert -/

/-- C1 (corrected): the claim that the Telegram target alert fires exactly
when the target is set and the new price is at or below it fails at a
target of `0`: `if telegram and product.target_price and ...` treats a
`0.0` target as falsy, so a product with target `0` and scraped price `0`
satisfies the claimed condition yet fires no alert. -/
theorem telegram_target_alert_zero_target_cex :
    (⟨1, some 0⟩ : WatchedProduct).target_price = some 0
    ∧ (⟨0, none, true⟩ : ProductInfo).price ≤ 0
    ∧ (checkProductAlerts true true ⟨1, some 0⟩ none none
        ⟨0, none, true⟩).any Alert.isTgTarget = false := by
  refine ⟨rfl, le_refl 0, ?_⟩
  decide

/-- C1 (amended): on every successful check with the Telegram channel
configured, the Telegram target alert fires iff the product's target price
is set to a nonzero value and the new price is at or below it — regardless
of the stored history (`previous` is arbitrary, so this covers the very
first observation and arbitrarily repeated consecutive checks: there is no
dedup on this channel). -/
theorem telegram_target_alert_fires_iff (hasNotifier : Bool) (p : WatchedProduct)
    (previous : Option PriceRecord) (lowest : Option ℚ) (info : ProductInfo) :
    (checkProductAlerts hasNotifier true p previous lowest info).any Alert.isTgTarget = true
      ↔ ∃ t, p.target_price = some t ∧ t ≠ 0 ∧ info.price ≤ t := by
  unfold checkProductAlerts
  rw [List.any_append, List.any_append, emailAlerts_any_tgTarget,
    tgRestockAlert_any_tgTarget]
  unfold tgTargetAlert
  cases htp : p.target_price with
  | none => simp
  | some t => simp [any_ite_single, Alert.isTgTarget]

/-! ### C2 — email price-drop alert -/

/-- C2 (confirmed): with the email channel configured, the email price-drop
alert fires iff a previous price record exists and the new price is
strictly below it; an equal price never fires it, and with no previous
record (the first observation) nothing fires. -/
theorem email_price_drop_fires_iff (hasTelegram : Bool) (p : WatchedProduct)
    (previous : Option PriceRecord) (lowest : Option ℚ) (info : ProductInfo) :
    (checkProductAlerts true hasTelegram p previous lowest info).any Alert.isEmailPrice = true
      ↔ ∃ prev, previous = some prev ∧ info.price < prev.price := by
  unfold checkProductAlerts
  rw [List.any_append, List.any_append, tgTargetAlert_any_emailPrice,
    tgRestockAlert_any_emailPrice]
  unfold emailAlerts
  cases previous with
  | none => simp
  | some prev => simp [List.any_append, any_ite_single, Alert.isEmailPrice]

/-! ### C3 — restock alerts -/

/-- C3 (confirmed): on each configured channel, the back-in-stock alert
fires iff a previous record exists with `in_stock = false` and the new
observation has `in_stock = true`; no other transition (including a first
observation with no previous record) fires it. -/
theorem restock_alert_fires_iff (hasNotifier hasTelegram : Bool) (p : WatchedProduct)
    (previous : Option PriceRecord) (lowest : Option ℚ) (info : ProductInfo) :
    ((checkProductAlerts true hasTelegram p previous lowest info).any Alert.isEmailRestock = true
      ↔ ∃ prev, previous = some prev ∧ prev.in_stock = false ∧ info.in_stock = true)
    ∧ ((checkProductAlerts hasNotifier true p previous lowest info).any Alert.isTgRestock = true
      ↔ ∃ prev, previous = some prev ∧ prev.in_stock = false ∧ info.in_stock = true) := by
  constructor
  · unfold checkProductAlerts
    rw [List.any_append, List.any_append, tgTargetAlert_any_emailRestock,
      tgRestockAlert_any_emailRestock]
    unfold emailAlerts
    cases previous with
    | none => simp
    | some prev =>
      simp [List.any_append, any_ite_single, Alert.isEmailRestock]
      tauto
  · unfold checkProductAlerts
    rw [List.any_append, List.any_append, emailAlerts_any_tgRestock,
      tgTargetAlert_any_tgRestock]
    unfold tgRestockAlert
    cases previous with
    | none => simp
    | some prev =>
      simp [any_ite_single, Alert.isTgRestock]
      tauto

/-! ### C4 — original-price invariant -/

/-- Truthiness of an optional price, unfolded. -/
lemma optRatTruthy_true_iff (o : Option ℚ) :
    optRatTruthy o = true ↔ ∃ q, o = some q ∧ q ≠ 0 := by
  cases o <;> simp [optRatTruthy]

/-- The Amazon MRP loop keeps only candidates strictly above the price. -/
lemma amazonMrpScan_invariant (price : ℚ) (l : List (Option String)) :
    amazonMrpScan price l none = none
    ∨ ∃ v, amazonMrpScan price l none = some v ∧ price < v := by
  induction l with
  | nil => exact Or.inl rfl
  | cons hd tl ih =>
    cases hd with
    | none => simpa only [amazonMrpScan] using ih
    | some t =>
      simp only [amazonMrpScan]
      split_ifs with hc
      · obtain ⟨hop, hlt⟩ := hc
        obtain ⟨q, hq, -⟩ := (optRatTruthy_true_iff _).mp hop
        exact Or.inr ⟨q, hq, by simpa [hq] using hlt⟩
      · exact ih

/-- The Flipkart truthiness discard keeps `none`, a zero candidate, or a
candidate strictly above the price. -/
lemma fkDiscardMrp_invariant (pv : ℚ) (orig : Option ℚ) :
    fkDiscardMrp pv orig = none ∨ fkDiscardMrp pv orig = some 0
    ∨ ∃ v, fkDiscardMrp pv orig = some v ∧ pv < v := by
  unfold fkDiscardMrp
  split_ifs with hc
  · exact Or.inl rfl
  · cases orig with
    | none => exact Or.inl rfl
    | some w =>
      by_cases hw : w = 0
      · subst hw; exact Or.inr (Or.inl rfl)
      · refine Or.inr (Or.inr ⟨w, rfl, ?_⟩)
        have ht : optRatTruthy (some w) = true := by simp [optRatTruthy, hw]
        rw [not_and] at hc
        have := hc ht
        simp only [Option.getD_some] at this
        exact lt_of_not_le this

/-- Inversion of a successful Amazon scrape. -/
lemma amazonScrape_ok {page : AmzPage} {r : ProductInfo}
    (h : amazonScrape page = .ok r) :
    amazonPriceVar page = some r.price
    ∧ r.original_price = amazonMrpScan r.price page.mrpSelTexts none
    ∧ r.in_stock = amazonInStock page.availText := by
  unfold amazonScrape at h
  split at h
  · exact absurd h (by simp)
  · rename_i pv hpv
    cases h
    exact ⟨hpv, rfl, rfl⟩

/-- Inversion of a successful Flipkart scrape. -/
lemma flipkartScrape_ok {page : FkPage} {r : ProductInfo}
    (h : flipkartScrape page = .ok r) :
    (fkRawPriceMrp page).1 = some r.price
    ∧ r.original_price = fkDiscardMrp r.price (fkRawPriceMrp page).2
    ∧ r.in_stock = !(fkOutPattern page.bodyText) := by
  unfold flipkartScrape at h
  split at h
  · exact absurd h (by simp)
  · rename_i pv hpv
    cases h
    exact ⟨hpv, rfl, rfl⟩

/-- C4 (corrected): the claimed invariant `original_price` null-or-greater
fails on the Flipkart pipeline: a struck-through `₹0` candidate is falsy,
so the discard `if original_price and original_price <= price:` keeps it,
producing an observation with `original_price = 0` not above the price. -/
theorem flipkart_zero_mrp_cex :
    flipkartScrape ⟨[⟨"₹0", true, ""⟩, ⟨"₹100", false, ""⟩], ⟨[], [], []⟩, ""⟩
      = .ok ⟨100, some 0, true⟩
    ∧ (some (0 : ℚ) ≠ none) ∧ ¬ ((100 : ℚ) < 0) := by
  refine ⟨by decide, by simp, by decide⟩

/-- C4 (amended): every observation of the Amazon pipeline has
`original_price` null or strictly greater than the price; every
observation of the Flipkart pipeline (JS sweep or BeautifulSoup fallback)
has `original_price` null, zero, or strictly greater than the price — the
zero case is the one divergence from the claimed invariant. -/
theorem original_price_invariant_amended (apage : AmzPage) (fpage : FkPage)
    (r1 r2 : ProductInfo) (h1 : amazonScrape apage = .ok r1)
    (h2 : flipkartScrape fpage = .ok r2) :
    (r1.original_price = none
      ∨ ∃ v, r1.original_price = some v ∧ r1.price < v)
    ∧ (r2.original_price = none ∨ r2.original_price = some 0
      ∨ ∃ v, r2.original_price = some v ∧ r2.price < v) := by
  obtain ⟨-, ho1, -⟩ := amazonScrape_ok h1
  obtain ⟨-, ho2, -⟩ := flipkartScrape_ok h2
  constructor
  · rw [ho1]; exact amazonMrpScan_invariant _ _
  · rw [ho2]; exact fkDiscardMrp_invariant _ _

/-- C4 witness: the amended invariant at two concrete scrapes. -/
theorem original_price_invariant_amended_witness :
    (((⟨100, some 200, true⟩ : ProductInfo).original_price = none
      ∨ ∃ v, (⟨100, some 200, true⟩ : ProductInfo).original_price = some v
          ∧ (⟨100, some 200, true⟩ : ProductInfo).price < v)
    ∧ ((⟨999, none, true⟩ : ProductInfo).original_price = none
      ∨ (⟨999, none, true⟩ : ProductInfo).original_price = some 0
      ∨ ∃ v, (⟨999, none, true⟩ : ProductInfo).original_price = some v
          ∧ (⟨999, none, true⟩ : ProductInfo).price < v)) :=
  original_price_invariant_amended
    ⟨[some "₹100"], [], [some "₹200"], none⟩
    ⟨[], ⟨[some "₹999"], [], []⟩, ""⟩
    ⟨100, some 200, true⟩ ⟨999, none, true⟩ (by decide) (by decide)

/-! ### C5 — batch failure isolation -/

/-- C5 (confirmed): in a batch of three products whose middle product's
extraction raises while the others succeed (and channel sends succeed),
the observations of products 1 and 3 are both recorded, the batch runs to
completion with one outcome per product, and exactly the middle product is
logged as the single failure. -/
theorem batch_failure_isolation
    (scrape : WatchedProduct → Except String ProductInfo)
    (notifyOk : Alert → Bool) (hasNotifier hasTelegram sendFlag : Bool)
    (db0 : DB) (p1 p2 p3 : WatchedProduct) (i1 i3 : ProductInfo) (msg : String)
    (h1 : scrape p1 = .ok i1) (h2 : scrape p2 = .error msg)
    (h3 : scrape p3 = .ok i3) (hn : ∀ a, notifyOk a = true) :
    (checkAllProducts scrape notifyOk hasNotifier hasTelegram sendFlag db0
        [p1, p2, p3]).db
      = db0 ++ [⟨p1.id, i1.price, i1.original_price, i1.in_stock⟩,
                ⟨p3.id, i3.price, i3.original_price, i3.in_stock⟩]
    ∧ (checkAllProducts scrape notifyOk hasNotifier hasTelegram sendFlag db0
        [p1, p2, p3]).outs.map (fun o => o.failed) = [false, true, false]
    ∧ (checkAllProducts scrape notifyOk hasNotifier hasTelegram sendFlag db0
        [p1, p2, p3]).outs.length = 3 := by
  have hall : ∀ l : List Alert, l.all notifyOk = true := fun l =>
    List.all_eq_true.mpr fun a _ => hn a
  refine ⟨?_, ?_, ?_⟩ <;>
    simp [checkAllProducts, batchLoop, checkProduct, h1, h2, h3, hall,
      recordPrice, List.append_assoc]

/-- C5 witness: the batch scenario at concrete products and outcomes. -/
theorem batch_failure_isolation_witness :
    (checkAllProducts demoScrape (fun _ => true) true true true []
        [demoP1, demoP2, demoP3]).db
      = [⟨1, 100, none, true⟩, ⟨3, 90, none, true⟩]
    ∧ (checkAllProducts demoScrape (fun _ => true) true true true []
        [demoP1, demoP2, demoP3]).outs.map (fun o => o.failed)
      = [false, true, false]
    ∧ (checkAllProducts demoScrape (fun _ => true) true true true []
        [demoP1, demoP2, demoP3]).outs.length = 3 :=
  batch_failure_isolation demoScrape (fun _ => true) true true true []
    demoP1 demoP2 demoP3 ⟨100, none, true⟩ ⟨90, none, true⟩ "no price found"
    (by decide) (by decide) (by decide) (fun a => rfl)

/-! ### C6 and C7 — the price parser -/

/-- C6 (confirmed): the price parser maps `"₹1,299.00"` to `1299.00` and
maps `"Free"` and the empty string to no-value (not zero, not an error);
the model is a total function into `Option ℚ`, reflecting that the code
catches `ValueError` and never throws. -/
theorem parse_price_examples :
    parse_price "₹1,299.00" = some 1299
    ∧ parse_price "Free" = none ∧ parse_price "" = none := by
  refine ⟨?_, by decide, by decide⟩
  have hp : pyFloatParts (stripWs (cleanChars "₹1,299.00".toList))
      = some (false, 129900, 2, 0) := by decide
  show (pyFloatParts (stripWs (cleanChars "₹1,299.00".toList))).map ratOfParts
      = some 1299
  rw [hp]
  show some (ratOfParts (false, 129900, 2, 0)) = some 1299
  rw [show ratOfParts (false, 129900, 2, 0) = (129900 : ℚ) / 10 ^ (2 : ℕ) from rfl]
  norm_num

/-- C7 (corrected): the parser is not confined to non-negative values —
the cleaning regex only strips `₹`, commas and whitespace, and Python
`float` accepts a sign, so `"-5"` parses to the negative value `-5`. -/
theorem parse_price_negative_cex :
    parse_price "-5" = some (-5) ∧ ((-5 : ℚ) < 0) := by
  exact ⟨by decide, by decide⟩

/-- Unsigned decimal parts denote a non-negative rational. -/
lemma partsToRat_nonneg (m k : ℕ) (e : ℤ) : 0 ≤ partsToRat m k e := by
  unfold partsToRat
  split_ifs
  · exact_mod_cast Nat.zero_le _
  · exact div_nonneg (Nat.cast_nonneg m) (by positivity)

/-- Membership in a whitespace-stripped list implies membership. -/
lemma stripWs_subset {a : Char} {l : List Char} (h : a ∈ stripWs l) : a ∈ l := by
  unfold stripWs at h
  rw [List.mem_reverse] at h
  have h2 := (List.dropWhile_suffix isPyWs).sublist.subset h
  rw [List.mem_reverse] at h2
  exact (List.dropWhile_suffix isPyWs).sublist.subset h2

/-- Without a minus character the parsed sign flag is positive. -/
lemma pyFloatParts_no_minus {l : List Char} (hm : '-' ∉ l) {b : Bool}
    {m k : ℕ} {e : ℤ} (h : pyFloatParts l = some (b, m, k, e)) : b = false := by
  cases l with
  | nil => simp [pyFloatParts] at h
  | cons c t =>
    by_cases hc : c = '-'
    · exact absurd (hc ▸ List.mem_cons_self c t) hm
    · simp only [pyFloatParts] at h
      split_ifs at h <;>
        · rw [Option.map_eq_some'] at h
          obtain ⟨p, -, hp⟩ := h
          cases hp
          rfl

/-- C7 (amended): on every input that contains no `-` character — in
particular on every currency-formatted price text — a parsed value is
non-negative; the sign the claim overlooked is the only source of
negative parses. -/
theorem parse_price_nonneg_no_minus (s : String) (v : ℚ)
    (h : parse_price s = some v) (hm : '-' ∉ s.toList) : 0 ≤ v := by
  unfold parse_price at h
  split_ifs at h
  rw [pyFloatList, Option.map_eq_some'] at h
  obtain ⟨⟨b, m, k, e⟩, hp, hv⟩ := h
  have hm2 : '-' ∉ stripWs (cleanChars s.toList) := fun hmem =>
    hm (List.mem_filter.mp (stripWs_subset hmem)).1
  rw [pyFloatParts_no_minus hm2 hp] at hv
  rw [← hv]
  simpa [ratOfParts] using partsToRat_nonneg m k e

/-- C7 witness: the amended non-negativity at the concrete input `"₹5"`. -/
theorem parse_price_nonneg_no_minus_witness :
    parse_price "₹5" = some 5 ∧ ('-' ∉ "₹5".toList) ∧ (0 : ℚ) ≤ 5 :=
  ⟨by decide, by decide,
    parse_price_nonneg_no_minus "₹5" 5 (by decide) (by decide)⟩

/-! ### C8 — stock flags -/

/-- C8 (corrected): the two pipelines do not share the spec's single
"unavailable / out of stock / coming soon" pattern: an Amazon page whose
availability text is `Coming Soon` matches the claimed pattern yet is
extracted with `in_stock = true`, because the Amazon check only looks for
`unavailable` and `out of stock`. -/
theorem amazon_coming_soon_cex :
    amazonScrape ⟨[some "₹100"], [], [], some "Coming Soon"⟩
      = .ok ⟨100, none, true⟩
    ∧ specOutOfStockPattern "Coming Soon" = true
    ∧ (⟨100, none, true⟩ : ProductInfo).in_stock ≠ false := by
  refine ⟨by decide, by decide, by simp⟩

/-- C8 (amended): `in_stock` defaults to true on both pipelines; the
Amazon pipeline sets it false exactly when the `#availability` element is
present and its lowercased text contains `unavailable` or `out of stock`,
and the Flipkart pipeline sets it false exactly when the page body matches
`currently unavailable|out of stock|coming soon` case-insensitively. -/
theorem in_stock_flag_amended (apage : AmzPage) (fpage : FkPage)
    (r1 r2 : ProductInfo) (h1 : amazonScrape apage = .ok r1)
    (h2 : flipkartScrape fpage = .ok r2) :
    (r1.in_stock = false
      ↔ ∃ t, apage.availText = some t ∧ amazonAvailOut t = true)
    ∧ (r2.in_stock = false ↔ fkOutPattern fpage.bodyText = true) := by
  obtain ⟨-, -, hs1⟩ := amazonScrape_ok h1
  obtain ⟨-, -, hs2⟩ := flipkartScrape_ok h2
  constructor
  · rw [hs1]
    cases havail : apage.availText with
    | none => simp [amazonInStock]
    | some t => simp [amazonInStock]
  · rw [hs2]
    simp

/-- C8 witness: the amended characterisation at two concrete pages that
really are out of stock. -/
theorem in_stock_flag_amended_witness :
    ((⟨100, none, false⟩ : ProductInfo).in_stock = false
      ↔ ∃ t, (⟨[some "₹100"], [], [], some "Currently unavailable."⟩ : AmzPage).availText
          = some t ∧ amazonAvailOut t = true)
    ∧ ((⟨50, none, false⟩ : ProductInfo).in_stock = false
      ↔ fkOutPattern (⟨[⟨"₹50", false, ""⟩], ⟨[], [], []⟩,
          "Currently out of stock"⟩ : FkPage).bodyText = true) :=
  in_stock_flag_amended
    ⟨[some "₹100"], [], [], some "Currently unavailable."⟩
    ⟨[⟨"₹50", false, ""⟩], ⟨[], [], []⟩, "Currently out of stock"⟩
    ⟨100, none, false⟩ ⟨50, none, false⟩ (by decide) (by decide)

/-! ### C9 and C10 — the daily-summary slot -/

/-- After any run the stored summary date is that run's date: either the
run claimed the slot, or the slot already carried today's date. -/
lemma runCheck_state (st : SchedulerState) (db : DB) (inp : RunInput) :
    (runCheck st db inp).1 = ⟨some inp.date⟩ := by
  rcases st with ⟨ls⟩
  by_cases h : ls = some inp.date
  · simp [runCheck, h]
  · simp [runCheck, h]

/-- With the summary flag off the batch never sends a summary. -/
lemma checkAllProducts_flag_off (scrape : WatchedProduct → Except String ProductInfo)
    (notifyOk : Alert → Bool) (hasNotifier hasTelegram : Bool) (db : DB)
    (products : List WatchedProduct) :
    (checkAllProducts scrape notifyOk hasNotifier hasTelegram false db
      products).summarySent = false := by
  simp [checkAllProducts]

/-- A run whose date already occupies the slot sends no summary. -/
lemma runCheck_sent_blocked (st : SchedulerState) (db : DB) (inp : RunInput)
    (h : st.lastSummaryDate = some inp.date) :
    (runCheck st db inp).2.2 = false := by
  simp [runCheck, h, checkAllProducts_flag_off]

/-- No summary is counted for a day strictly before every run. -/
lemma processRuns_count_gt (st : SchedulerState) (db : DB)
    (runs : List RunInput) (d : ℤ) (h : ∀ r ∈ runs, d < r.date) :
    (processRuns st db runs).countP (fun x => x.1 == d && x.2) = 0 := by
  induction runs generalizing st db with
  | nil => rfl
  | cons r rest ih =>
    have hd := h r (List.mem_cons_self r rest)
    simp only [processRuns, List.countP_cons]
    rw [ih _ _ (fun x hx => h x (List.mem_cons_of_mem r hx))]
    have hne : (r.date == d) = false := by
      simp only [beq_eq_false_iff_ne, ne_eq]
      omega
    simp [hne]

/-- Once the slot carries day `d`, no run of a nondecreasing sequence of
runs dated on or after `d` sends a summary counted for `d`. -/
lemma processRuns_count_claimed (db : DB) (runs : List RunInput) (d : ℤ)
    (hs : List.Sorted (· ≤ ·) (runs.map (fun r => r.date)))
    (hge : ∀ r ∈ runs, d ≤ r.date) :
    (processRuns ⟨some d⟩ db runs).countP (fun x => x.1 == d && x.2) = 0 := by
  induction runs generalizing db with
  | nil => rfl
  | cons r rest ih =>
    rw [List.map_cons, List.sorted_cons] at hs
    obtain ⟨hhead, htail⟩ := hs
    by_cases hd : r.date = d
    · subst hd
      have hsent : (runCheck ⟨some r.date⟩ db r).2.2 = false :=
        runCheck_sent_blocked _ _ _ rfl
      simp only [processRuns, List.countP_cons]
      rw [hsent, runCheck_state]
      rw [ih _ htail (fun x hx => hge x (List.mem_cons_of_mem r hx))]
      simp
    · have hgt : d < r.date :=
        lt_of_le_of_ne (hge r (List.mem_cons_self r rest)) (fun e => hd e.symm)
      simp only [processRuns, List.countP_cons]
      rw [runCheck_state]
      rw [processRuns_count_gt _ _ _ _ (fun x hx =>
        lt_of_lt_of_le hgt (hhead x.date (List.mem_map_of_mem _ hx)))]
      have hne : (r.date == d) = false := by
        simp only [beq_eq_false_iff_ne, ne_eq]
        omega
      simp [hne]

/-- Over a nondecreasing sequence of runs, any day's summary count is at
most one, from any starting slot state. -/
lemma processRuns_count_le_one (st : SchedulerState) (db : DB)
    (runs : List RunInput) (d : ℤ)
    (hs : List.Sorted (· ≤ ·) (runs.map (fun r => r.date))) :
    (processRuns st db runs).countP (fun x => x.1 == d && x.2) ≤ 1 := by
  induction runs generalizing st db with
  | nil => simp [processRuns]
  | cons r rest ih =>
    rw [List.map_cons, List.sorted_cons] at hs
    obtain ⟨hhead, htail⟩ := hs
    simp only [processRuns, List.countP_cons]
    by_cases hd : r.date = d
    · subst hd
      rw [runCheck_state]
      rw [processRuns_count_claimed _ _ _ htail (fun x hx =>
        hhead x.date (List.mem_map_of_mem _ hx))]
      split_ifs <;> simp
    · have hne : (r.date == d) = false := by
        simp only [beq_eq_false_iff_ne, ne_eq]
        omega
      have := ih (runCheck st db r).1 (runCheck st db r).2.1 htail
      simpa [hne] using this

/-- C9 (confirmed): within one scheduler process (initial state with no
stored summary date), across any chronologically ordered sequence of batch
runs, at most one daily summary is sent per calendar day, however many
runs that day has. -/
theorem daily_summary_once_per_day (db : DB) (runs : List RunInput) (d : ℤ)
    (hs : List.Sorted (· ≤ ·) (runs.map (fun r => r.date))) :
    (processRuns ⟨none⟩ db runs).countP (fun x => x.1 == d && x.2) ≤ 1 :=
  processRuns_count_le_one ⟨none⟩ db runs d hs

/-- C9 witness: two same-day runs send at most one summary. -/
theorem daily_summary_once_per_day_witness :
    (processRuns ⟨none⟩ [] [demoRun, demoRun]).countP
      (fun x => x.1 == (5 : ℤ) && x.2) ≤ 1 :=
  daily_summary_once_per_day [] [demoRun, demoRun] 5
    (by simp [demoRun, List.sorted_cons])

/-- Runs all dated `d`, started with the slot already carrying `d`, send
no summary at all. -/
lemma processRuns_all_same_day (rest : List RunInput) (db : DB) (d : ℤ)
    (hsame : ∀ r ∈ rest, r.date = d) :
    (processRuns ⟨some d⟩ db rest).all (fun x => !x.2) = true := by
  induction rest generalizing db with
  | nil => rfl
  | cons r tail ih =>
    have hd := hsame r (List.mem_cons_self r tail)
    simp only [processRuns, List.all_cons]
    have hsent : (runCheck ⟨some d⟩ db r).2.2 = false :=
      runCheck_sent_blocked _ _ _ (by simp [hd])
    rw [hsent, runCheck_state, hd]
    simp only [Bool.not_false, Bool.true_and]
    exact ih _ (fun x hx => hsame x (List.mem_cons_of_mem r hx))

/-- C10 (confirmed): the first run of a calendar day claims the summary
slot before the batch runs; if that run sends no summary (for instance
because some targeted product is at or below target), every later run of
the same day sends none either, whatever its batch looks like. -/
theorem summary_slot_consumed_first_run (st : SchedulerState) (db : DB)
    (first : RunInput) (rest : List RunInput)
    (hfresh : st.lastSummaryDate ≠ some first.date)
    (hnosend : (runCheck st db first).2.2 = false)
    (hsame : ∀ r ∈ rest, r.date = first.date) :
    (processRuns (runCheck st db first).1 (runCheck st db first).2.1 rest).all
      (fun x => !x.2) = true := by
  rw [runCheck_state]
  exact processRuns_all_same_day rest _ first.date hsame

/-- C10 witness: a first run of day 3 whose targeted product sits below
target sends no summary, and the second run of day 3 — whose targeted
product is above target — sends none either. -/
theorem summary_slot_consumed_first_run_witness :
    (processRuns (runCheck ⟨none⟩ [] demoRunBelow).1
        (runCheck ⟨none⟩ [] demoRunBelow).2.1 [demoRunAbove]).all
      (fun x => !x.2) = true :=
  summary_slot_consumed_first_run ⟨none⟩ [] demoRunBelow [demoRunAbove]
    (by decide) (by decide) (by decide)

end ItemWatcher
